import Mathlib

/-!
Shallow embedding of the `countdown_cli` terminal timer (Rust) for
specification checking.

Source layout:
* `src/main.rs` — `PomodoroTimer` state machine, the command dispatch and
  the per-tick countdown scheduling/formatting in `terminal_run`;
* `src/config.rs` — `Countdown` / `CountDownData` records, `CountDownConfig`
  with `set_config`, `get_config` and the `HotReload::reload` implementation;
* `src/command.rs`, `src/notify.rs` — terminal-escape and notification
  plumbing (external side effects, modelled as counters where needed).

Modelling conventions:
* `Instant` is a natural number of seconds; `Instant::elapsed` is truncated
  (saturating) subtraction `now - start`, matching Rust's saturating
  `Instant::elapsed`.
* `Duration` values held by the timer are natural numbers of seconds
  (the source builds them with `Duration::from_secs`).
* Signed `chrono::Duration` values in the countdown scheduler are integers
  of milliseconds; `num_seconds`, `num_minutes`, `num_hours`, `num_days`
  are truncating division toward zero (`Int.tdiv`), exactly chrono's
  semantics, and Rust's `%` on `i64` is `Int.tmod`.
* `colored` styling (`bright_magenta()` etc.) is modelled as the identity on
  strings: colorization is a terminal-environment effect orthogonal to the
  textual content the specification speaks about.
-/

/-- The `PomodoroState` enum of `src/main.rs` (lines 43-49). -/
inductive PomodoroState where
  | Idle
  | Work
  | ShortBreak
  | LongBreak
deriving DecidableEq, Repr

/-- The `PomodoroTimer` struct of `src/main.rs` (lines 51-60).
Instants are seconds as naturals; durations are seconds as naturals. -/
structure PomodoroTimer where
  start_time : Option Nat
  work_duration : Nat
  short_break_duration : Nat
  long_break_duration : Nat
  state : PomodoroState
  completed_work_sessions : Nat
  long_break_interval : Nat
  last_completed_time : Option Nat
deriving DecidableEq, Repr

/-- `PomodoroTimer::new` (main.rs lines 63-74): Idle, no start time,
25/5/15 minute durations, interval 4. -/
def PomodoroTimer.new : PomodoroTimer where
  start_time := none
  work_duration := 25 * 60
  short_break_duration := 5 * 60
  long_break_duration := 15 * 60
  state := .Idle
  completed_work_sessions := 0
  long_break_interval := 4
  last_completed_time := none

/-- `PomodoroTimer::stop` (main.rs lines 76-79). -/
def PomodoroTimer.stop (t : PomodoroTimer) : PomodoroTimer :=
  { t with start_time := none, state := .Idle }

/-- The duration the `match` inside `remaining_time` selects for the current
state; `none` models the `Idle => return Duration::from_secs(0)` early
return (main.rs lines 84-89). -/
def PomodoroTimer.phaseDuration (t : PomodoroTimer) : Option Nat :=
  match t.state with
  | .Work => some t.work_duration
  | .ShortBreak => some t.short_break_duration
  | .LongBreak => some t.long_break_duration
  | .Idle => none

/-- `PomodoroTimer::remaining_time` (main.rs lines 81-96): `start_time.map`
over the closure computing `elapsed` and flooring `duration - elapsed`
at zero. -/
def PomodoroTimer.remaining_time (t : PomodoroTimer) (now : Nat) : Option Nat :=
  t.start_time.map fun start =>
    let elapsed := now - start
    match t.phaseDuration with
    | none => 0
    | some duration => if duration ≤ elapsed then 0 else duration - elapsed

/-- `PomodoroTimer::next_state` (main.rs lines 98-111): from Work increment
`completed_work_sessions` and stamp `last_completed_time`; from the two
break states stamp `last_completed_time`; from Idle do nothing; in every
case set `state = Idle` and clear `start_time`. -/
def PomodoroTimer.next_state (t : PomodoroTimer) (now : Nat) : PomodoroTimer :=
  let t' :=
    match t.state with
    | .Work =>
        { t with completed_work_sessions := t.completed_work_sessions + 1
                 last_completed_time := some now }
    | .ShortBreak | .LongBreak => { t with last_completed_time := some now }
    | .Idle => t
  { t' with state := .Idle, start_time := none }

/-- `PomodoroTimer::set_state` (main.rs lines 113-117): set the state, stamp
`start_time = now`, clear `last_completed_time`. -/
def PomodoroTimer.set_state (t : PomodoroTimer) (new_state : PomodoroState)
    (now : Nat) : PomodoroTimer :=
  { t with state := new_state, start_time := some now, last_completed_time := none }

/-- `PomodoroTimer::set_work_duration` (main.rs lines 119-121). -/
def PomodoroTimer.set_work_duration (t : PomodoroTimer) (minutes : Nat) :
    PomodoroTimer :=
  { t with work_duration := minutes * 60 }

/-- `PomodoroTimer::set_short_break_duration` (main.rs lines 123-125). -/
def PomodoroTimer.set_short_break_duration (t : PomodoroTimer) (minutes : Nat) :
    PomodoroTimer :=
  { t with short_break_duration := minutes * 60 }

/-- `PomodoroTimer::set_long_break_duration` (main.rs lines 127-129). -/
def PomodoroTimer.set_long_break_duration (t : PomodoroTimer) (minutes : Nat) :
    PomodoroTimer :=
  { t with long_break_duration := minutes * 60 }

/-- `PomodoroTimer::set_long_break_interval` (main.rs lines 131-133). -/
def PomodoroTimer.set_long_break_interval (t : PomodoroTimer) (interval : Nat) :
    PomodoroTimer :=
  { t with long_break_interval := interval }

/-- `PomodoroTimer::time_since_last_completion` (main.rs lines 135-137). -/
def PomodoroTimer.time_since_last_completion (t : PomodoroTimer) (now : Nat) :
    Option Nat :=
  t.last_completed_time.map fun time => now - time

/-- The engine-mutating commands dispatched by `terminal_run`
(main.rs lines 169-193), after tokenization and numeric-argument parsing;
`pause`/`resume`/unrecognized inputs never touch the timer and are omitted. -/
inductive Cmd where
  | start
  | stop
  | short
  | long
  | next
  | workDur (minutes : Nat)
  | shortDur (minutes : Nat)
  | longDur (minutes : Nat)
  | intervalCount (n : Nat)
deriving DecidableEq, Repr

/-- Command dispatch of `terminal_run` (main.rs lines 169-193): each arm maps
onto the `PomodoroTimer` method the source calls.  In particular `start`
is `set_state(PomodoroState::Work)` unconditionally (line 169). -/
def applyCommand (c : Cmd) (t : PomodoroTimer) (now : Nat) : PomodoroTimer :=
  match c with
  | .start => t.set_state .Work now
  | .stop => t.stop
  | .short => t.set_state .ShortBreak now
  | .long => t.set_state .LongBreak now
  | .next => t.next_state now
  | .workDur m => t.set_work_duration m
  | .shortDur m => t.set_short_break_duration m
  | .longDur m => t.set_long_break_duration m
  | .intervalCount n => t.set_long_break_interval n

/-- Timer states reachable in the program: the initial `PomodoroTimer::new`,
followed by any sequence of dispatched commands (main.rs lines 169-193) or
the tick-loop's automatic `next_state` call when remaining time hits zero
(main.rs line 268, subsumed by the `next` command). -/
inductive PomodoroTimer.Reachable : PomodoroTimer → Prop
  | init : PomodoroTimer.Reachable PomodoroTimer.new
  | step (c : Cmd) (now : Nat) {t : PomodoroTimer} :
      PomodoroTimer.Reachable t → PomodoroTimer.Reachable (applyCommand c t now)

/-- The invariant named by the spec: `phase_start` (`start_time`) is `None`
exactly when the phase is Idle. -/
def PomodoroTimer.inv (t : PomodoroTimer) : Prop :=
  t.start_time = none ↔ t.state = .Idle

theorem PomodoroTimer.inv_new : PomodoroTimer.new.inv := by
  simp [PomodoroTimer.inv, PomodoroTimer.new]

theorem PomodoroTimer.inv_applyCommand (c : Cmd) (now : Nat)
    {t : PomodoroTimer} (h : t.inv) : (applyCommand c t now).inv := by
  cases c <;>
    simp_all [PomodoroTimer.inv, applyCommand, PomodoroTimer.set_state,
      PomodoroTimer.stop, PomodoroTimer.next_state,
      PomodoroTimer.set_work_duration, PomodoroTimer.set_short_break_duration,
      PomodoroTimer.set_long_break_duration,
      PomodoroTimer.set_long_break_interval]

theorem PomodoroTimer.inv_of_reachable {t : PomodoroTimer}
    (h : t.Reachable) : t.inv := by
  induction h with
  | init => exact PomodoroTimer.inv_new
  | step c now _ ih => exact PomodoroTimer.inv_applyCommand c now ih

/-!
Countdown records and the per-tick scheduling pipeline of `terminal_run`
(main.rs lines 206-345).
-/

/-- The `Countdown` record as declared in `src/config.rs` lines 9-13: only
`title` and `datetime`, no `enabled` field. -/
structure ConfigCountdown where
  title : String
  datetime : String
deriving DecidableEq, Repr

/-- The countdown record as consumed by `terminal_run`: main.rs line 211
filters on `countdown.enabled`, a field the `config.rs` declaration does not
provide (see the development around decoding below); the spec gives it
default `true` when omitted from the configuration. -/
structure Countdown where
  title : String
  datetime : String
  enabled : Bool
deriving DecidableEq, Repr

/-- Gregorian leap-year test (chrono's calendar). -/
def isLeapYear (y : Nat) : Bool :=
  y % 4 == 0 && (y % 100 != 0 || y % 400 == 0)

/-- Days in a month of the proleptic Gregorian calendar (chrono's calendar);
0 for an out-of-range month number. -/
def daysInMonth (y m : Nat) : Nat :=
  match m with
  | 1 => 31 | 3 => 31 | 5 => 31 | 7 => 31 | 8 => 31 | 10 => 31 | 12 => 31
  | 4 => 30 | 6 => 30 | 9 => 30 | 11 => 30
  | 2 => if isLeapYear y then 29 else 28
  | _ => 0

/-- Days in the months strictly before month `m` of year `y`. -/
def daysBeforeMonth (y m : Nat) : Nat :=
  let base :=
    match m with
    | 1 => 0 | 2 => 31 | 3 => 59 | 4 => 90 | 5 => 120 | 6 => 151
    | 7 => 181 | 8 => 212 | 9 => 243 | 10 => 273 | 11 => 304 | _ => 334
  if 3 ≤ m ∧ isLeapYear y then base + 1 else base

/-- Leap years in `[1, y-1]` of the Gregorian calendar. -/
def leapYearsBefore (y : Nat) : Nat :=
  (y - 1) / 4 - (y - 1) / 100 + (y - 1) / 400

/-- Days from 1970-01-01 to the Gregorian date `y-m-d` (valid dates with
`y ≥ 1970`). -/
def daysFromEpoch (y m d : Nat) : Nat :=
  365 * (y - 1970) + (leapYearsBefore y - leapYearsBefore 1970)
    + daysBeforeMonth y m + (d - 1)

/-- Decimal digit value of a character, `none` for a non-digit. -/
def digitVal (c : Char) : Option Nat :=
  if c.isDigit then some (c.toNat - 48) else none

/-- Two-digit decimal field of the fixed datetime format. -/
def twoDigits (a b : Char) : Option Nat := do
  let x ← digitVal a
  let y ← digitVal b
  pure (10 * x + y)

/-- Four-digit decimal field of the fixed datetime format. -/
def fourDigits (a b c d : Char) : Option Nat := do
  let x ← twoDigits a b
  let y ← twoDigits c d
  pure (100 * x + y)

/-- `NaiveDateTime::parse_from_str(s, "%Y-%m-%d %H:%M:%S")` (main.rs
line 213), modelling the external chrono parser on the fixed literal format
for dates from 1970 on (all dates this program's configuration is about):
the result is seconds since 1970-01-01 00:00:00, `none` when the shape or a
calendar field is invalid. -/
def parseNaiveDateTime (s : String) : Option Nat :=
  match s.data with
  | [y1, y2, y3, y4, '-', m1, m2, '-', d1, d2, ' ',
     h1, h2, ':', i1, i2, ':', s1, s2] => do
      let y ← fourDigits y1 y2 y3 y4
      let mo ← twoDigits m1 m2
      let d ← twoDigits d1 d2
      let h ← twoDigits h1 h2
      let mi ← twoDigits i1 i2
      let se ← twoDigits s1 s2
      if 1970 ≤ y ∧ 1 ≤ mo ∧ mo ≤ 12 ∧ 1 ≤ d ∧ d ≤ daysInMonth y mo
          ∧ h ≤ 23 ∧ mi ≤ 59 ∧ se ≤ 59 then
        pure (86400 * daysFromEpoch y mo d + 3600 * h + 60 * mi + se)
      else none
  | _ => none

/-!
chrono signed durations, as integers of milliseconds.  chrono's accessors
truncate toward zero, which is `Int.tdiv`; Rust's `%` on `i64` is `Int.tmod`.
-/

/-- `chrono::Duration::num_seconds` on a duration of `ms` milliseconds. -/
def numSeconds (ms : Int) : Int := Int.tdiv ms 1000

/-- `chrono::Duration::num_minutes` on a duration of `ms` milliseconds. -/
def numMinutes (ms : Int) : Int := Int.tdiv ms 60000

/-- `chrono::Duration::num_hours` on a duration of `ms` milliseconds. -/
def numHours (ms : Int) : Int := Int.tdiv ms 3600000

/-- `chrono::Duration::num_days` on a duration of `ms` milliseconds. -/
def numDays (ms : Int) : Int := Int.tdiv ms 86400000

/-- `chrono::Duration::num_milliseconds`. -/
def numMilliseconds (ms : Int) : Int := ms

/-- Rust's `format!("{:0w}", n)` for an `i64`: left-pad the decimal digits
with zeros to total width `w`, any sign before the padding. -/
def padInt (w : Nat) (n : Int) : String :=
  let mag := toString n.natAbs
  let sign := if n < 0 then "-" else ""
  if sign.length + mag.length < w then
    sign ++ String.mk (List.replicate (w - (sign.length + mag.length)) '0') ++ mag
  else sign ++ mag

/-- One countdown line of `terminal_run` (main.rs lines 292-345): given the
title and the remaining signed duration in milliseconds, the rendered
message and the number of notifications fired for this record on this tick
(the `osx_terminal_notifier` call in the zero band).  `colored` styling is
the identity here. -/
def renderCountdown (title : String) (remainingMs : Int) : String × Nat :=
  let remaining_seconds := numSeconds remainingMs
  if 86401 ≤ remaining_seconds then
    let days_left := numDays remainingMs
    let hours_left := padInt 2 (Int.tmod (numHours remainingMs) 24)
    let minutes_left := padInt 2 (Int.tmod (numMinutes remainingMs) 60)
    let secs_left := padInt 2 (Int.tmod (numSeconds remainingMs) 60)
    (title ++ ": There are " ++ toString days_left ++ " days, "
      ++ hours_left ++ ":" ++ minutes_left ++ ":" ++ secs_left
      ++ " secs left.", 0)
  else if 1 ≤ remaining_seconds then
    let hours_left := padInt 2 (Int.tmod (numHours remainingMs) 24)
    let minutes_left := padInt 2 (Int.tmod (numMinutes remainingMs) 60)
    let secs_left := padInt 2 (Int.tmod (numSeconds remainingMs) 60)
    let mills_left := padInt 3 (Int.tmod (numMilliseconds remainingMs) 1000)
    (title ++ ": There are " ++ hours_left ++ ":" ++ minutes_left ++ ":"
      ++ secs_left ++ "." ++ mills_left ++ " secs left.", 0)
  else if remaining_seconds = 0 then
    (title ++ ": Now is the time!", 1)
  else
    (title ++ ": The datetime was " ++ toString (-remaining_seconds)
      ++ " seconds ago.", 0)

/-- The filter-parse step of `terminal_run` (main.rs lines 206-224): keep
enabled records, parse each datetime, drop records that fail to parse. -/
def collectTargets (records : List Countdown) : List (String × Nat) :=
  (records.filter (fun c => c.enabled)).filterMap fun c =>
    (parseNaiveDateTime c.datetime).map fun dt => (c.title, dt)

/-- `target_datetimes.sort_by(|a, b| a.1.cmp(&b.1))` (main.rs line 226):
Rust's `sort_by` is a stable sort; `List.mergeSort` is the stable sort of
the Lean library. -/
def sortTargets (l : List (String × Nat)) : List (String × Nat) :=
  l.mergeSort fun a b => a.2 ≤ b.2

/-- The countdown half of one tick of `terminal_run` (main.rs lines 206-345):
filter, parse, sort, then render each record against the current time
`now` (seconds since epoch; the in-loop `Local::now()` read at line 293,
taken here at whole-second granularity).  Remaining time is
`target - now` as a signed duration (milliseconds). -/
def tickLines (records : List Countdown) (now : Nat) : List (String × Nat) :=
  (sortTargets (collectTargets records)).map fun p =>
    renderCountdown p.1 (((p.2 : Int) - (now : Int)) * 1000)

/-- The rendered message texts of one tick. -/
def tickMessages (records : List Countdown) (now : Nat) : List String :=
  (tickLines records now).map Prod.fst

/-- Whether `pat` occurs at the head of `l`. -/
def headMatches : List Char → List Char → Bool
  | [], _ => true
  | _ :: _, [] => false
  | a :: pat, b :: l => a == b && headMatches pat l

/-- Whether `pat` occurs contiguously anywhere in `l`. -/
def occursIn (pat : List Char) : List Char → Bool
  | [] => headMatches pat []
  | b :: l => headMatches pat (b :: l) || occursIn pat l

/-- Substring test on strings (contiguous occurrence). -/
def containsStr (s pat : String) : Bool := occursIn pat.data s.data

/-!
`src/config.rs`: the shared configuration store and its hot reload.
-/

/-- `CountDownData` (config.rs lines 15-18): the decoded configuration, a
list of the records `config.rs` declares. -/
structure CountDownData where
  countdown : List ConfigCountdown
deriving DecidableEq, Repr

/-- `CountDownConfig::set_config` (config.rs lines 45-48): replace the whole
stored list, under the store's lock, with the given one. -/
def set_config (stored : CountDownData) (data : CountDownData) : CountDownData :=
  { stored with countdown := data.countdown }

/-- `CountDownConfig::get_config` (config.rs lines 50-55): a copy of the
stored list taken under the lock. -/
def get_config (stored : CountDownData) : CountDownData :=
  { countdown := stored.countdown }

/-- `HotReload::reload` for `CountDownConfig` (config.rs lines 58-67).  The
external effects are parameters: `readResult` is the outcome of opening and
reading the file (`File::open` / `read_to_string`, each `?`-propagated) and
`decode` is `toml::from_str`.  The result pairs the stored list after the
call with the `Result` the method returns: on any failure the function
returns the error before `set_config` runs, so the stored list is
untouched. -/
def reload (readResult : Except String String)
    (decode : String → Except String CountDownData)
    (stored : CountDownData) : CountDownData × Except String Unit :=
  match readResult with
  | .error e => (stored, .error e)
  | .ok contents =>
      match decode contents with
      | .error e => (stored, .error e)
      | .ok countdown_data => (set_config stored countdown_data, .ok ())

/-- The reload task body (main.rs lines 415-420): each period it runs
`reload` and discards the `Result` (`let _ = ... .reload()`), so the task's
next stored state is defined whatever the outcome and the loop continues. -/
def reloadTaskStep (readResult : Except String String)
    (decode : String → Except String CountDownData)
    (stored : CountDownData) : CountDownData :=
  (reload readResult decode stored).1

/-!
Claim theorems.
-/

/-- C1 (counterexample): from the freshly started timer the phase is Work and
the incremented session count (1) is not a multiple of `long_break_interval`
(4), so the claim predicts a transition to ShortBreak; the code instead
moves to Idle and clears `start_time` (main.rs lines 109-110). -/
theorem C1_counterexample :
    (PomodoroTimer.new.set_state .Work 0).state = .Work ∧
    ((PomodoroTimer.new.set_state .Work 0).next_state 1).completed_work_sessions %
      (PomodoroTimer.new.set_state .Work 0).long_break_interval ≠ 0 ∧
    ((PomodoroTimer.new.set_state .Work 0).next_state 1).state ≠ .ShortBreak ∧
    ((PomodoroTimer.new.set_state .Work 0).next_state 1).start_time = none := by
  decide

/-- C1 (amended): `next_state()` from Work increments
`completed_work_sessions` by one; from any other phase it leaves the counter
unchanged; from every phase it sets the phase to Idle and clears
`phase_start`; from every non-Idle phase it stamps `last_completed_time`.
Consequently `start()` followed by successive `next_state()` calls yields
Work, Idle, Idle with `completed_work_sessions = 1` from the first
`next_state()` on. -/
theorem C1_next_state_goes_idle (t : PomodoroTimer) (now : Nat) :
    (t.state = .Work →
      (t.next_state now).completed_work_sessions = t.completed_work_sessions + 1) ∧
    (t.state ≠ .Work →
      (t.next_state now).completed_work_sessions = t.completed_work_sessions) ∧
    (t.next_state now).state = .Idle ∧
    (t.next_state now).start_time = none ∧
    (t.state ≠ .Idle → (t.next_state now).last_completed_time = some now) ∧
    ((applyCommand .start PomodoroTimer.new 0).state = .Work ∧
      ((applyCommand .start PomodoroTimer.new 0).next_state 1).state = .Idle ∧
      ((applyCommand .start PomodoroTimer.new 0).next_state 1).completed_work_sessions = 1 ∧
      (((applyCommand .start PomodoroTimer.new 0).next_state 1).next_state 2).state = .Idle ∧
      (((applyCommand .start PomodoroTimer.new 0).next_state 1).next_state 2).completed_work_sessions = 1) := by
  refine ⟨?_, ?_, ?_, ?_, ?_, by decide⟩ <;>
    cases h : t.state <;> simp_all [PomodoroTimer.next_state]

theorem C1_next_state_goes_idle_witness :
    ((PomodoroTimer.new.set_state .Work 5).next_state 7).completed_work_sessions
      = (PomodoroTimer.new.set_state .Work 5).completed_work_sessions + 1 ∧
    ((PomodoroTimer.new.set_state .Work 5).next_state 7).last_completed_time = some 7 := by
  have h := C1_next_state_goes_idle (PomodoroTimer.new.set_state .Work 5) 7
  exact ⟨h.1 (by decide), h.2.2.2.2.1 (by decide)⟩

/-- C2 (counterexample): with the engine in ShortBreak, the `start` command
does not keep the current phase: it forces Work
(main.rs line 169, `set_state(PomodoroState::Work)`). -/
theorem C2_counterexample :
    (PomodoroTimer.new.set_state .ShortBreak 0).state = .ShortBreak ∧
    (applyCommand .start (PomodoroTimer.new.set_state .ShortBreak 0) 1).state
      ≠ .ShortBreak := by
  decide

/-- C2 (amended): the `start` command is `set_state(Work)` unconditionally:
from Idle it transitions to Work recording `phase_start = now`; from a
non-Idle phase it also forces the phase to Work (re-stamping `phase_start`
and clearing `last_completed_time`) rather than restarting the current
phase. -/
theorem C2_start_forces_work (t : PomodoroTimer) (now : Nat) :
    applyCommand .start t now = t.set_state .Work now ∧
    (applyCommand .start t now).state = .Work ∧
    (applyCommand .start t now).start_time = some now ∧
    (applyCommand .start t now).last_completed_time = none :=
  ⟨rfl, rfl, rfl, rfl⟩

/-- C5: on every reachable timer state, `remaining_time` is `None` exactly
when the phase is Idle, and any returned value is the phase's configured
duration minus the elapsed time floored at zero — never negative. -/
theorem C5_remaining_floored_none_iff_idle (t : PomodoroTimer)
    (ht : t.Reachable) (now : Nat) :
    (t.remaining_time now = none ↔ t.state = .Idle) ∧
    (∀ r, t.remaining_time now = some r →
      ∃ start duration, t.start_time = some start ∧
        t.phaseDuration = some duration ∧
        (r : Int) = max 0 ((duration : Int) - ((now - start : Nat) : Int))) := by
  have hinv := PomodoroTimer.inv_of_reachable ht
  rw [PomodoroTimer.inv] at hinv
  constructor
  · rw [← hinv, PomodoroTimer.remaining_time]
    cases t.start_time <;> simp
  · intro r hr
    rw [PomodoroTimer.remaining_time] at hr
    cases hs : t.start_time with
    | none => rw [hs] at hr; simp at hr
    | some start =>
      have hstate : t.state ≠ .Idle := by
        intro hidle
        rw [← hinv, hs] at hidle
        exact Option.noConfusion hidle
      cases hd : t.phaseDuration with
      | none =>
        cases h : t.state <;> simp_all [PomodoroTimer.phaseDuration]
      | some duration =>
        rw [hs, hd] at hr
        simp only [Option.map_some', Option.some.injEq] at hr
        refine ⟨start, duration, rfl, rfl, ?_⟩
        by_cases hle : duration ≤ now - start
        · rw [if_pos hle] at hr
          rw [← hr,
            max_eq_left (by omega : (duration : Int) - ((now - start : Nat) : Int) ≤ 0)]
          simp
        · rw [if_neg hle] at hr
          rw [max_eq_right (by omega : (0 : Int) ≤ (duration : Int) - ((now - start : Nat) : Int))]
          omega

theorem C5_remaining_floored_none_iff_idle_witness :
    PomodoroTimer.new.remaining_time 0 = none :=
  (C5_remaining_floored_none_iff_idle PomodoroTimer.new
    PomodoroTimer.Reachable.init 0).1.mpr rfl

/-- C6: the invariant "`phase_start` is `None` iff the phase is Idle" holds
in the initial state and is preserved by `stop`, `next_state`, `set_state`
with any of the three non-Idle phases (the spec's `start`/`set_phase`
operations), and the four setters. -/
theorem C6_phase_start_none_iff_idle :
    PomodoroTimer.new.inv ∧
    ∀ t : PomodoroTimer, t.inv → ∀ now : Nat,
      t.stop.inv ∧ (t.next_state now).inv ∧
      (∀ p : PomodoroState, p ≠ .Idle → (t.set_state p now).inv) ∧
      (∀ m, (t.set_work_duration m).inv) ∧
      (∀ m, (t.set_short_break_duration m).inv) ∧
      (∀ m, (t.set_long_break_duration m).inv) ∧
      (∀ n, (t.set_long_break_interval n).inv) := by
  refine ⟨PomodoroTimer.inv_new, fun t h now => ⟨?_, ?_, ?_, ?_, ?_, ?_, ?_⟩⟩
  · simp [PomodoroTimer.inv, PomodoroTimer.stop]
  · cases t.state <;> simp [PomodoroTimer.inv, PomodoroTimer.next_state]
  · intro p hp
    simp [PomodoroTimer.inv, PomodoroTimer.set_state, hp]
  all_goals intro m; simpa [PomodoroTimer.inv, PomodoroTimer.set_work_duration,
    PomodoroTimer.set_short_break_duration, PomodoroTimer.set_long_break_duration,
    PomodoroTimer.set_long_break_interval] using h

theorem C6_phase_start_none_iff_idle_witness :
    PomodoroTimer.new.stop.inv :=
  (C6_phase_start_none_iff_idle.2 PomodoroTimer.new
    C6_phase_start_none_iff_idle.1 0).1

/-- C10: `next_state()` stamps `last_completed_time := now` from every
non-Idle phase (Work and both breaks alike) and leaves it unchanged from
Idle; right after ending a non-Idle phase `time_since_last_completion`
is `Some`. -/
theorem C10_next_state_stamps_completion (t : PomodoroTimer) (now later : Nat) :
    (t.state ≠ .Idle →
      (t.next_state now).last_completed_time = some now ∧
      (t.next_state now).time_since_last_completion later = some (later - now)) ∧
    (t.state = .Idle →
      (t.next_state now).last_completed_time = t.last_completed_time) := by
  constructor
  · intro h
    cases hs : t.state <;>
      simp_all [PomodoroTimer.next_state, PomodoroTimer.time_since_last_completion]
  · intro h
    simp [PomodoroTimer.next_state, h]

theorem C10_next_state_stamps_completion_witness :
    ((PomodoroTimer.new.set_state .ShortBreak 0).next_state 3).last_completed_time
      = some 3 ∧
    ((PomodoroTimer.new.set_state .ShortBreak 0).next_state 3).time_since_last_completion 10
      = some 7 :=
  (C10_next_state_stamps_completion (PomodoroTimer.new.set_state .ShortBreak 0)
    3 10).1 (by decide)

/-!
Truncating-division reduction lemmas for the chrono accessors on
natural-number durations (all divisors of interest are positive literals).
-/

theorem tdiv_cast1000 (a : Nat) : Int.tdiv (a : Int) 1000 = ((a / 1000 : Nat) : Int) := rfl

theorem tdiv_cast60000 (a : Nat) : Int.tdiv (a : Int) 60000 = ((a / 60000 : Nat) : Int) := rfl

theorem tdiv_cast3600000 (a : Nat) : Int.tdiv (a : Int) 3600000 = ((a / 3600000 : Nat) : Int) := rfl

theorem tdiv_cast86400000 (a : Nat) : Int.tdiv (a : Int) 86400000 = ((a / 86400000 : Nat) : Int) := rfl

theorem tdiv_cast60 (a : Nat) : Int.tdiv (a : Int) 60 = ((a / 60 : Nat) : Int) := rfl

theorem tdiv_cast3600 (a : Nat) : Int.tdiv (a : Int) 3600 = ((a / 3600 : Nat) : Int) := rfl

theorem tdiv_cast86400 (a : Nat) : Int.tdiv (a : Int) 86400 = ((a / 86400 : Nat) : Int) := rfl

theorem tmod_cast24 (a : Nat) : Int.tmod (a : Int) 24 = ((a % 24 : Nat) : Int) := rfl

theorem tmod_cast60 (a : Nat) : Int.tmod (a : Int) 60 = ((a % 60 : Nat) : Int) := rfl

/-- C3: for whole-second remaining time `r` (milliseconds `1000 * r`):
above 86400 seconds the day band renders total days and wall-clock moduli
`HH:MM:SS`; at exactly 86400 the sub-day band `HH:MM:SS.mmm` applies
(rendering `00:00:00.000`); at zero the "now is the time" message fires
exactly one notification; at −1 the message reports the total absolute
seconds, "was 1 seconds ago". -/
theorem C3_formatting_bands (title : String) (r : Int) (hday : 86400 < r) :
    renderCountdown title (1000 * r)
      = (title ++ ": There are " ++ toString (Int.tdiv r 86400) ++ " days, "
          ++ padInt 2 (Int.tmod (Int.tdiv r 3600) 24) ++ ":"
          ++ padInt 2 (Int.tmod (Int.tdiv r 60) 60) ++ ":"
          ++ padInt 2 (Int.tmod r 60) ++ " secs left.", 0) ∧
    renderCountdown title (1000 * 86400)
      = (title ++ ": There are 00:00:00.000 secs left.", 0) ∧
    renderCountdown title 0 = (title ++ ": Now is the time!", 1) ∧
    renderCountdown title (1000 * -1)
      = (title ++ ": The datetime was 1 seconds ago.", 0) := by
  refine ⟨?_, ?_, rfl, ?_⟩
  · obtain ⟨n, rfl⟩ : ∃ n : Nat, r = (n : Int) :=
      ⟨r.toNat, (Int.toNat_of_nonneg (by omega)).symm⟩
    have hn : 86400 < n := by exact_mod_cast hday
    have hcast : (1000 : Int) * (n : Int) = ((1000 * n : Nat) : Int) := by
      push_cast
      ring
    rw [hcast]
    have e1 : 1000 * n / 1000 = n := Nat.mul_div_cancel_left n (by norm_num)
    have e86400 : 1000 * n / 86400000 = n / 86400 := by
      rw [show (86400000 : Nat) = 1000 * 86400 from rfl]
      exact Nat.mul_div_mul_left n 86400 (by norm_num)
    have e3600 : 1000 * n / 3600000 = n / 3600 := by
      rw [show (3600000 : Nat) = 1000 * 3600 from rfl]
      exact Nat.mul_div_mul_left n 3600 (by norm_num)
    have e60 : 1000 * n / 60000 = n / 60 := by
      rw [show (60000 : Nat) = 1000 * 60 from rfl]
      exact Nat.mul_div_mul_left n 60 (by norm_num)
    simp only [renderCountdown, numSeconds, numHours, numMinutes, numDays,
      tdiv_cast1000, tdiv_cast60000, tdiv_cast3600000, tdiv_cast86400000,
      tdiv_cast60, tdiv_cast3600, tdiv_cast86400, tmod_cast24, tmod_cast60,
      e1, e86400, e3600, e60]
    rw [if_pos (by exact_mod_cast Nat.succ_le_of_lt hn)]
  · show (title ++ ": There are " ++ "00" ++ ":" ++ "00" ++ ":" ++ "00"
      ++ "." ++ "000" ++ " secs left.", 0) = _
    simp only [String.append_assoc]
    exact congrArg (fun s => (title ++ s, 0)) (by rfl)
  · show (title ++ ": The datetime was " ++ "1" ++ " seconds ago.", 0) = _
    simp only [String.append_assoc]
    exact congrArg (fun s => (title ++ s, 0)) (by rfl)

theorem C3_formatting_bands_witness :
    (86400 : Int) < 86401 ∧
    renderCountdown "T" (1000 * 86401)
      = ("T" ++ ": There are " ++ toString (Int.tdiv (86401 : Int) 86400) ++ " days, "
          ++ padInt 2 (Int.tmod (Int.tdiv (86401 : Int) 3600) 24) ++ ":"
          ++ padInt 2 (Int.tmod (Int.tdiv (86401 : Int) 60) 60) ++ ":"
          ++ padInt 2 (Int.tmod (86401 : Int) 60) ++ " secs left.", 0) ∧
    renderCountdown "T" (1000 * 86401)
      = ("T: There are 1 days, 00:00:01 secs left.", 0) := by
  have h := (C3_formatting_bands "T" 86401 (by norm_num)).1
  exact ⟨by norm_num, h, by rw [h]; rfl⟩

/-- C4 (counterexample): the single-record configuration evaluated at the
fixed now 2098-12-31 00:00:00 (86400 whole seconds before the target)
renders through the sub-day band: the emitted line is
"Launch: There are 00:00:00.000 secs left.", which does not contain the
substring "1 days" the claim requires. -/
theorem C4_counterexample :
    parseNaiveDateTime "2098-12-31 00:00:00" = some 4070822400 ∧
    parseNaiveDateTime "2099-01-01 00:00:00" = some 4070908800 ∧
    tickMessages [⟨"Launch", "2099-01-01 00:00:00", true⟩] 4070822400
      = ["Launch: There are 00:00:00.000 secs left."] ∧
    containsStr "Launch: There are 00:00:00.000 secs left." "1 days" = false := by
  refine ⟨by decide, by decide, ?_, by decide⟩
  have hc : collectTargets [⟨"Launch", "2099-01-01 00:00:00", true⟩]
      = [("Launch", 4070908800)] := by decide
  unfold tickMessages tickLines
  rw [hc, sortTargets, List.mergeSort_singleton]
  decide

/-- C4 (amended): the configuration with the single enabled record
`{title: "Launch", datetime: "2099-01-01 00:00:00"}` evaluated at the fixed
now 2098-12-31 00:00:00 renders exactly one line containing "Launch" and
"00:00:00"; since the remaining time is exactly 86400 seconds the line uses
the sub-day band (`00:00:00.000`) and contains no "1 days". -/
theorem C4_launch_line_subday_band :
    tickMessages [⟨"Launch", "2099-01-01 00:00:00", true⟩] 4070822400
      = ["Launch: There are 00:00:00.000 secs left."] ∧
    containsStr "Launch: There are 00:00:00.000 secs left." "Launch" = true ∧
    containsStr "Launch: There are 00:00:00.000 secs left." "00:00:00" = true := by
  refine ⟨?_, by decide, by decide⟩
  have hc : collectTargets [⟨"Launch", "2099-01-01 00:00:00", true⟩]
      = [("Launch", 4070908800)] := by decide
  unfold tickMessages tickLines
  rw [hc, sortTargets, List.mergeSort_singleton]
  decide

/-- C7: `reload` is atomic — whenever reading the file or decoding it fails,
it returns the error before `set_config` runs, so the stored countdown list
is completely unchanged; only a successful decode replaces the snapshot;
and the periodic reload task discards the result, so its next state is
defined for failures too. -/
theorem C7_reload_atomic (readResult : Except String String)
    (decode : String → Except String CountDownData) (stored : CountDownData) :
    (∀ e, readResult = .error e →
      reload readResult decode stored = (stored, .error e)) ∧
    (∀ contents e, readResult = .ok contents → decode contents = .error e →
      reload readResult decode stored = (stored, .error e)) ∧
    (∀ contents d, readResult = .ok contents → decode contents = .ok d →
      reload readResult decode stored = (set_config stored d, .ok ())) ∧
    reloadTaskStep readResult decode stored = (reload readResult decode stored).1 := by
  refine ⟨?_, ?_, ?_, rfl⟩
  · rintro e rfl
    rfl
  · rintro contents e rfl hd
    simp [reload, hd]
  · rintro contents d rfl hd
    simp [reload, hd]

theorem C7_reload_atomic_witness :
    reload (.ok "not toml") (fun _ => .error "decode failure")
        ⟨[⟨"Launch", "2099-01-01 00:00:00"⟩]⟩
      = (⟨[⟨"Launch", "2099-01-01 00:00:00"⟩]⟩, .error "decode failure") :=
  (C7_reload_atomic (.ok "not toml") (fun _ => .error "decode failure")
    ⟨[⟨"Launch", "2099-01-01 00:00:00"⟩]⟩).2.1 "not toml" "decode failure" rfl rfl

/-- C8: the rendered countdown lines follow the order of
`sortTargets (collectTargets records)`, that order is non-decreasing in the
target timestamp, and the sort is stable: for every target timestamp the
records carrying it appear in their original relative order (their filtered
subsequence is unchanged by the sort). -/
theorem C8_render_order_sorted_stable (records : List Countdown) (now : Nat)
    (l : List (String × Nat)) :
    tickLines records now
      = (sortTargets (collectTargets records)).map
          (fun p => renderCountdown p.1 (((p.2 : Int) - (now : Int)) * 1000)) ∧
    List.Sorted (fun a b : String × Nat => a.2 ≤ b.2)
      (sortTargets (collectTargets records)) ∧
    ∀ k : Nat, (sortTargets l).filter (fun x => x.2 == k)
      = l.filter (fun x => x.2 == k) := by
  have htrans : ∀ a b c : String × Nat, (decide (a.2 ≤ b.2)) = true →
      decide (b.2 ≤ c.2) = true → decide (a.2 ≤ c.2) = true := by
    intro a b c hab hbc
    simp only [decide_eq_true_eq] at *
    omega
  have htotal : ∀ a b : String × Nat,
      (decide (a.2 ≤ b.2) || decide (b.2 ≤ a.2)) = true := by
    intro a b
    simp only [Bool.or_eq_true, decide_eq_true_eq]
    omega
  refine ⟨rfl, ?_, ?_⟩
  · unfold sortTargets
    exact List.Pairwise.imp (fun h => of_decide_eq_true h)
      (List.sorted_mergeSort htrans htotal (collectTargets records))
  · intro k
    have hself : (l.filter (fun x => x.2 == k)).filter (fun x => x.2 == k)
        = l.filter (fun x => x.2 == k) :=
      List.filter_eq_self.mpr (fun a ha => (List.mem_filter.mp ha).2)
    have hpw : (l.filter (fun x => x.2 == k)).Pairwise
        (fun a b : String × Nat => decide (a.2 ≤ b.2) = true) := by
      apply List.pairwise_of_forall_mem_list
      intro a ha b hb
      have ha' := (List.mem_filter.mp ha).2
      have hb' := (List.mem_filter.mp hb).2
      simp only [beq_iff_eq] at ha' hb'
      simp [ha', hb']
    have hsub : (l.filter (fun x => x.2 == k)).Sublist
        (List.mergeSort l (fun a b => decide (a.2 ≤ b.2))) :=
      List.sublist_mergeSort htrans htotal hpw (List.filter_sublist l)
    have hsub2 := hsub.filter (fun x => x.2 == k)
    rw [hself] at hsub2
    have hperm := (List.mergeSort_perm l (fun a b => decide (a.2 ≤ b.2))).filter
      (fun x => x.2 == k)
    unfold sortTargets
    exact (hsub2.eq_of_length hperm.length_eq.symm).symm

/-- C9: the `Countdown` record type declared in `src/config.rs` (lines 9-13)
is fully determined by `title` and `datetime` — it has no third field, so a
decoded record carries no `enabled` information at all (while main.rs
line 211 nevertheless reads `countdown.enabled`). -/
theorem C9_config_record_has_no_enabled_field (a b : ConfigCountdown)
    (ht : a.title = b.title) (hd : a.datetime = b.datetime) : a = b := by
  cases a
  cases b
  simp_all

theorem C9_config_record_has_no_enabled_field_witness :
    (⟨"Launch", "2099-01-01 00:00:00"⟩ : ConfigCountdown)
      = ⟨"Launch", "2099-01-01 00:00:00"⟩ :=
  C9_config_record_has_no_enabled_field _ _ rfl rfl
